import Mathlib

/-!
# Shallow embedding of `filmweb_scraper_api.py`

The repository is a single-file movie-rating aggregator: three per-source
scrapers (Filmweb, IMDb, Rotten Tomatoes), a concurrent aggregator
(`get_all_ratings`, backed by `asyncio.gather`), and a user-activity
extractor (`scrape_filmweb_user_recent`).

The embedding models:
* the network as a `World` providing `fetch : String → Option Page`
  (`none` = any raised network error);
* parsed markup (`BeautifulSoup`) as a `Page` answering `select_one` /
  `select` queries from association lists, with nodes (`Elem`) carrying
  text, attributes and sub-element lookup;
* Python string/number primitives (`str.split`, `str.strip`,
  `str.replace`, `urllib.parse.quote`, `float(...)`, `int(...)`) as
  executable Lean functions over `String` / `ℚ` / `ℤ`;
* each scraper's `try/except` as an `Option`-valued body (`none` = an
  exception reached the handler) collapsed with `Option.getD` to the
  bare `RatingSource` the handler returns.
-/

/-! ## Python string and number primitives -/

/-- Python `str.split(sep)` over character lists, structurally recursive on
a fuel bound (so it reduces inside the kernel): scan for the leftmost
occurrence of the (nonempty) separator, cut there, continue after it.
`acc` holds the current fragment, reversed.  With `fuel ≥ cs.length` the
fuel never runs out. -/
def splitFuel (sep : List Char) : Nat → List Char → List Char →
    List (List Char)
  | _, [], acc => [acc.reverse]
  | 0, c :: rest, acc => [acc.reverse ++ c :: rest]
  | fuel + 1, c :: rest, acc =>
    if sep.isPrefixOf (c :: rest) then
      acc.reverse :: splitFuel sep fuel (List.drop (sep.length - 1) rest) []
    else
      splitFuel sep fuel rest (c :: acc)

/-- Python `s.split(sep)` for a nonempty separator (the only way the source
uses it).  Always returns a nonempty list of fragments. -/
def pySplit (s sep : String) : List String :=
  (splitFuel sep.toList s.toList.length s.toList []).map
    (fun l => String.mk l)

/-- Characters Python's `str.strip()` removes (ASCII whitespace — the only
kind appearing in the scraped texts). -/
def stripChars (cs : List Char) : List Char :=
  ((cs.dropWhile Char.isWhitespace).reverse.dropWhile Char.isWhitespace).reverse

/-- Python `s.strip()`. -/
def pyStrip (s : String) : String :=
  String.mk (stripChars s.toList)

/-- Interleave a separator between fragments (`sep.join(...)`). -/
def joinWith (sep : List Char) : List (List Char) → List Char
  | [] => []
  | [l] => l
  | l :: ls => l ++ sep ++ joinWith sep ls

/-- Python `s.replace(old, new)` for a nonempty `old`: equivalent to
`new.join(s.split(old))`. -/
def pyReplace (s old new : String) : String :=
  String.mk (joinWith new.toList (splitFuel old.toList s.toList.length s.toList []))

/-- Python `s.startswith(pre)`. -/
def pyStartsWith (s pre : String) : Bool :=
  pre.toList.isPrefixOf s.toList

/-- Python `sub in s` for a nonempty `sub`: true iff splitting on `sub`
produces at least two fragments. -/
def pyContains (sub s : String) : Bool :=
  2 ≤ (pySplit s sub).length

/-- Value of a list of decimal digit characters. -/
def digitsToNat (l : List Char) : Nat :=
  l.foldl (fun a c => a * 10 + (c.toNat - 48)) 0

/-- Test that `l` is a nonempty run of ASCII decimal digits. -/
def isDigitRun (l : List Char) : Bool :=
  !l.isEmpty && l.all (fun c => c.isDigit)

/-- Python `float(s)` restricted to plain decimal literals
`[ws] [+-] digits [. digits] [ws]` (the only shapes the scraped score
texts take; exponents, `inf` and `nan` are not exercised by the source).
`none` models a raised `ValueError`. -/
def pyFloat (s : String) : Option ℚ :=
  let cs := stripChars s.toList
  let signed : ℤ × List Char :=
    match cs with
    | '-' :: rest => (-1, rest)
    | '+' :: rest => (1, rest)
    | _ => (1, cs)
  match (signed.2).splitOn '.' with
  | [w] => if isDigitRun w then some (mkRat (signed.1 * digitsToNat w) 1) else none
  | [w, f] =>
    if (w ++ f ≠ []) && (w.all (fun c => c.isDigit))
        && (f.all (fun c => c.isDigit)) then
      some (mkRat
        (signed.1 * (digitsToNat w * 10 ^ f.length + digitsToNat f))
        (10 ^ f.length))
    else none
  | _ => none

/-- Python `int(s)`: optional surrounding whitespace, optional sign, then a
nonempty run of decimal digits.  `none` models a raised `ValueError`. -/
def pyInt (s : String) : Option ℤ :=
  let cs := stripChars s.toList
  match cs with
  | '-' :: rest => if isDigitRun rest then some (-(digitsToNat rest : ℤ)) else none
  | '+' :: rest => if isDigitRun rest then some (digitsToNat rest : ℤ) else none
  | _ => if isDigitRun cs then some (digitsToNat cs : ℤ) else none

/-- UTF-8 bytes of one character, as plain naturals. -/
def utf8Bytes (c : Char) : List Nat :=
  let n := c.toNat
  if n < 128 then [n]
  else if n < 2048 then [192 + n / 64, 128 + n % 64]
  else if n < 65536 then
    [224 + n / 4096, 128 + (n / 64) % 64, 128 + n % 64]
  else
    [240 + n / 262144, 128 + (n / 4096) % 64, 128 + (n / 64) % 64,
      128 + n % 64]

/-- Uppercase hexadecimal digit, as `urllib.parse.quote` emits. -/
def hexDigit (n : Nat) : Char :=
  if n < 10 then Char.ofNat (48 + n) else Char.ofNat (55 + n)

/-- Bytes `urllib.parse.quote` leaves unescaped with its default
`safe='/'`: ASCII alphanumerics, `_ . - ~` and `/`. -/
def isSafeByte (b : Nat) : Bool :=
  (48 ≤ b && b ≤ 57) || (65 ≤ b && b ≤ 90) || (97 ≤ b && b ≤ 122)
    || b == 45 || b == 46 || b == 95 || b == 126 || b == 47

/-- Percent-encoding of one byte. -/
def quoteByte (b : Nat) : String :=
  if isSafeByte b then String.singleton (Char.ofNat b)
  else String.mk ['%', hexDigit (b / 16), hexDigit (b % 16)]

/-- Python `urllib.parse.quote(s)` with the default safe set: UTF-8 encode,
then percent-escape every unsafe byte. -/
def quote (s : String) : String :=
  s.toList.foldl
    (fun r c => r ++ ((utf8Bytes c).map quoteByte).foldl (· ++ ·) "") ""

/-! ## Markup model -/

/-- A parsed markup node: its text content, its attributes, and the result
of `select_one` for each sub-selector the source applies to it.  This is
the spec's "markup query capability" (`text`, `attribute`, ordered
selector lookup). -/
inductive Elem : Type where
  | node (text : String) (attrs : List (String × String))
      (sub : List (String × Elem)) : Elem

/-- Text content of a node (`node.text`). -/
def Elem.text : Elem → String
  | .node t _ _ => t

/-- Attribute lookup (`node.get(name)`); `none` models Python `None`. -/
def Elem.attr : Elem → String → Option String
  | .node _ attrs _, name => attrs.lookup name

/-- Sub-node lookup, `node.select_one(sel)`. -/
def Elem.selectOne : Elem → String → Option Elem
  | .node _ _ sub, sel => sub.lookup sel

/-- A parsed page (`BeautifulSoup(resp.content)`): what `select_one` and
`select` answer for each selector the source queries. -/
structure Page where
  one : List (String × Elem)
  all : List (String × List Elem)

/-- Page-level `soup.select_one(sel)`. -/
def Page.selectOne (p : Page) (sel : String) : Option Elem :=
  p.one.lookup sel

/-- Page-level `soup.select(sel)` (empty when the selector matches nothing). -/
def Page.select (p : Page) (sel : String) : List Elem :=
  (p.all.lookup sel).getD []

/-- The network: `fetch url = none` models any exception raised by
`client.get` (connection error, timeout); `some page` is a fetched and
parsed response. -/
structure World where
  fetch : String → Option Page

/-! ## Data model (`pydantic` models) -/

/-- Model `RatingSource`: one source's outcome.  `rating` is `none` for "not
found or unparseable". -/
structure RatingSource where
  source : String
  rating : Option ℚ := none
  vote_count : Option String := none
  url : Option String := none
deriving DecidableEq, Repr

/-- Model `CombinedMovieData`: the aggregator's result. -/
structure CombinedMovieData where
  query_title : String
  year : Option String := none
  ratings : List RatingSource
deriving DecidableEq, Repr

/-- Model `UserRating`: one entry of a user's recent activity. -/
structure UserRating where
  title : String
  user_rating : ℤ
  timestamp : Option String := none
deriving DecidableEq, Repr

/-! ## Scrapers -/

/-- Search query `f"\x7btitle\x7d \x7byear\x7d" if year else title` shared by the
Filmweb and IMDb scrapers. -/
def searchQuery (title : String) (year : Option String) : String :=
  match year with
  | some y => title ++ " " ++ y
  | none => title

/-- Filmweb search URL (source lines 50–52). -/
def filmweb_search_url (title : String) (year : Option String) : String :=
  "https://www.filmweb.pl/search?q=" ++ quote (searchQuery title year)

/-- IMDb search URL (source lines 83–85); `&s=tt` restricts to titles. -/
def imdb_search_url (title : String) (year : Option String) : String :=
  "https://www.imdb.com/find?q=" ++ quote (searchQuery title year) ++ "&s=tt"

/-- Rotten Tomatoes search URL (source lines 117–118): built from the
title alone — the `year` argument is not consulted there. -/
def rt_search_url (title : String) (_year : Option String) : String :=
  "https://www.rottentomatoes.com/search?search=" ++ quote title

/-- Bare `RatingSource(source="Filmweb", rating=None)`, as the `except` handler
and the no-result path build it. -/
def bareFilmweb : RatingSource := { source := "Filmweb" }

/-- Bare `RatingSource(source="IMDb", rating=None)`. -/
def bareIMDb : RatingSource := { source := "IMDb" }

/-- Bare `RatingSource(source="Rotten Tomatoes", rating=None)`. -/
def bareRT : RatingSource := { source := "Rotten Tomatoes" }

/-- Body of `scrape_filmweb`'s `try` block (source lines 49–75).  `none`
means an exception escaped to the `except` handler: a failed fetch, a
missing `href` (so `url.startswith` raises `AttributeError`), or
`float(...)` raising `ValueError` on the score text. -/
def scrape_filmweb_body (w : World) (title : String) (year : Option String) :
    Option RatingSource :=
  match w.fetch (filmweb_search_url title year) with
  | none => none
  | some soup =>
    match (soup.selectOne ".resultsList .preview__link").orElse
        (fun _ => soup.selectOne ".searchResult__link") with
    | none => some bareFilmweb
    | some result =>
      match result.attr "href" with
      | none => none
      | some href =>
        let url :=
          if pyStartsWith href "/" then "https://www.filmweb.pl" ++ href
          else href
        match w.fetch url with
        | none => none
        | some details_soup =>
          let ratingE : Option (Option ℚ) :=
            match details_soup.selectOne ".filmRating__rateValue" with
            | some rating_tag =>
              (pyFloat (pyReplace (pyStrip rating_tag.text) "," ".")).map some
            | none => some none
          match ratingE with
          | none => none
          | some rating =>
            let count :=
              (details_soup.selectOne ".filmRating__count").map
                (fun t => pyStrip t.text)
            some { source := "Filmweb", rating := rating,
                   vote_count := count, url := some url }

/-- Full `scrape_filmweb`: the `try` body with every exception collapsed to the
bare Filmweb record by the `except` handler. -/
def scrape_filmweb (w : World) (title : String) (year : Option String) :
    RatingSource :=
  (scrape_filmweb_body w title year).getD bareFilmweb

/-- Python string interpolation of a possibly-`None` value: an f-string
formats `None` as the text `"None"`. -/
def formatPyOpt : Option String → String
  | none => "None"
  | some s => s

/-- Body of `scrape_imdb`'s `try` block (source lines 82–110). -/
def scrape_imdb_body (w : World) (title : String) (year : Option String) :
    Option RatingSource :=
  match w.fetch (imdb_search_url title year) with
  | none => none
  | some soup =>
    match soup.selectOne ".ipc-metadata-list-summary-item__t" with
    | none => some bareIMDb
    | some result_link =>
      let href := formatPyOpt (result_link.attr "href")
      let movie_url := (pySplit ("https://www.imdb.com" ++ href) "?").headD ""
      match w.fetch movie_url with
      | none => none
      | some d_soup =>
        let ratingE : Option (Option ℚ) :=
          match d_soup.selectOne
              "[data-testid=\"hero-rating-bar__aggregate-rating__score\"] span" with
          | some rating_span => (pyFloat (pyStrip rating_span.text)).map some
          | none => some none
        match ratingE with
        | none => none
        | some rating =>
          let votes :=
            (d_soup.selectOne
              "div[data-testid=\"hero-rating-bar__aggregate-rating__score\"] ~ div").map
              (fun t => pyStrip t.text)
          some { source := "IMDb", rating := rating, vote_count := votes,
                 url := some movie_url }

/-- Full `scrape_imdb` with its `except` handler. -/
def scrape_imdb (w : World) (title : String) (year : Option String) :
    RatingSource :=
  (scrape_imdb_body w title year).getD bareIMDb

/-- Body of `scrape_rotten_tomatoes`'s `try` block (source lines 116–151).
The score parse has its own inner `try/except: pass`, so a `ValueError`
there leaves `rating = None` instead of escaping. -/
def scrape_rotten_tomatoes_body (w : World) (title : String)
    (year : Option String) : Option RatingSource :=
  match w.fetch (rt_search_url title year) with
  | none => none
  | some soup =>
    match (soup.selectOne "search-page-result[type=\"movie\"] a").orElse
        (fun _ =>
          soup.selectOne "#search-results movie-search-result-container a") with
    | none => some bareRT
    | some movie_link =>
      match movie_link.attr "href" with
      | none => none
      | some href =>
        let full_url :=
          if !pyStartsWith href "http" then
            "https://www.rottentomatoes.com" ++ href
          else href
        match w.fetch full_url with
        | none => none
        | some d_soup =>
          let score_tag :=
            (d_soup.selectOne "rt-button[slot=\"criticsScore\"] rt-text").orElse
              (fun _ => d_soup.selectOne "score-board-band rt-text")
          let rating : Option ℚ :=
            match score_tag with
            | some tag => pyFloat (pyReplace (pyStrip tag.text) "%" "")
            | none => none
          some { source := "Rotten Tomatoes", rating := rating,
                 vote_count := none, url := some full_url }

/-- Full `scrape_rotten_tomatoes` with its `except` handler. -/
def scrape_rotten_tomatoes (w : World) (title : String)
    (year : Option String) : RatingSource :=
  (scrape_rotten_tomatoes_body w title year).getD bareRT

/-! ## User-activity extractor -/

/-- Per-entry step of the user-activity loop (source lines 168–177).
`none` = an exception escaped the loop (missing `.filmTitle` node making
`title_tag.text` raise, or `int(...)` raising); `some none` = the entry
contributes nothing; `some (some r)` = `r` is appended.  Note: when the
structured `.userRate` element is present the source skips the guarded
fallback block and appends nothing. -/
def userItem (item : Elem) : Option (Option UserRating) :=
  let title_tag := item.selectOne ".filmTitle"
  let rate_tag := item.selectOne ".userRate"
  match rate_tag with
  | some _ => some none
  | none =>
    match item.selectOne ".span-10" with
    | none => some none
    | some rate_box =>
      if pyContains "ocenił na" rate_box.text then
        let after := (pySplit rate_box.text "ocenił na").getD 1 ""
        let rate_text := (pySplit (pyStrip after) " ").headD ""
        match title_tag, pyInt rate_text with
        | some tt, some r =>
          some (some { title := pyStrip tt.text, user_rating := r })
        | _, _ => none
      else some none

/-- The `for item in items` loop, accumulating `ratings`; any exception
aborts the loop (and is absorbed by the function's `except` handler). -/
def userLoop : List Elem → List UserRating → Option (List UserRating)
  | [], acc => some acc
  | item :: rest, acc =>
    match userItem item with
    | none => none
    | some none => userLoop rest acc
    | some (some r) => userLoop rest (acc ++ [r])

/-- Profile URL of the user-activity extractor (source line 160). -/
def filmweb_user_url (username : String) : String :=
  "https://www.filmweb.pl/user/" ++ username

/-- Extractor `scrape_filmweb_user_recent` (source lines 156–182): fetch the profile
page, scan `.voteCommentBox` entries in document order; the surrounding
`try/except` converts any exception into the empty list. -/
def scrape_filmweb_user_recent (w : World) (username : String) :
    List UserRating :=
  match w.fetch (filmweb_user_url username) with
  | none => []
  | some soup => (userLoop (soup.select ".voteCommentBox") []).getD []

/-! ## Aggregator -/

/-- Model of `asyncio.gather` slot semantics: tasks complete in the order given by
`order`; each completion writes its result into the slot indexed by its
argument position, never by completion rank. -/
def gatherSlots {α : Type} (order : List (Fin 3)) (tasks : Fin 3 → α) :
    Fin 3 → Option α :=
  order.foldl (fun s i => Function.update s i (some (tasks i))) (fun _ => none)

/-- The list `asyncio.gather` returns: slots read back in argument order
(`dflt` fills a slot whose task never completed; `gather` itself awaits
every task, so a completion order covering all three indices never uses
it). -/
def gather3 {α : Type} (order : List (Fin 3)) (tasks : Fin 3 → α)
    (dflt : α) : List α :=
  [(gatherSlots order tasks 0).getD dflt, (gatherSlots order tasks 1).getD dflt,
    (gatherSlots order tasks 2).getD dflt]

/-- The three extraction tasks of one `/all-ratings` call, in the argument
order `scrape_filmweb, scrape_imdb, scrape_rotten_tomatoes` (source lines
196–200). -/
def ratingTasks (w : World) (title : String) (year : Option String) :
    Fin 3 → RatingSource :=
  fun i =>
    if i = 0 then scrape_filmweb w title year
    else if i = 1 then scrape_imdb w title year
    else scrape_rotten_tomatoes w title year

/-- The `/all-ratings` endpoint `get_all_ratings` (source lines 190–206):
gather the three scrapers, then assemble `CombinedMovieData`.  `order` is
the completion order of the concurrent tasks. -/
def get_all_ratings (w : World) (title : String) (year : Option String)
    (order : List (Fin 3)) : CombinedMovieData :=
  { query_title := title, year := year,
    ratings := gather3 order (ratingTasks w title year) { source := "" } }

/-! ## Concrete worlds used by witnesses and counterexamples -/

/-- A world where every fetch raises (total network failure). -/
def failWorld : World := ⟨fun _ => none⟩

/-- Filmweb search page whose first-chain selector yields a relative link. -/
def fwSearchPage : Page :=
  { one := [(".resultsList .preview__link", Elem.node "" [("href", "/film/X")] [])],
    all := [] }

/-- Filmweb detail page with a well-formed comma-decimal score. -/
def fwDetailGood : Page :=
  { one := [(".filmRating__rateValue", Elem.node " 8,6 " [] []),
            (".filmRating__count", Elem.node " 123 456 ocen " [] [])],
    all := [] }

/-- Filmweb detail page whose score text cannot be parsed numerically. -/
def fwDetailBad : Page :=
  { one := [(".filmRating__rateValue", Elem.node "N/A" [] [])], all := [] }

/-- World resolving the Filmweb flow for title `"T"` to a good detail page. -/
def wFwGood : World :=
  ⟨fun u =>
    if u = "https://www.filmweb.pl/search?q=T" then some fwSearchPage
    else if u = "https://www.filmweb.pl/film/X" then some fwDetailGood
    else none⟩

/-- World resolving the Filmweb flow for title `"T"` to an unparseable
detail page. -/
def wFwBad : World :=
  ⟨fun u =>
    if u = "https://www.filmweb.pl/search?q=T" then some fwSearchPage
    else if u = "https://www.filmweb.pl/film/X" then some fwDetailBad
    else none⟩

/-- IMDb search page whose result link carries a query string. -/
def imSearchPage : Page :=
  { one := [(".ipc-metadata-list-summary-item__t",
             Elem.node "" [("href", "/title/tt0133093/?ref_=fn_al_tt_1")] [])],
    all := [] }

/-- IMDb detail page with a well-formed score. -/
def imDetailGood : Page :=
  { one := [("[data-testid=\"hero-rating-bar__aggregate-rating__score\"] span",
             Elem.node "8.7" [] [])],
    all := [] }

/-- IMDb detail page whose score text cannot be parsed numerically. -/
def imDetailBad : Page :=
  { one := [("[data-testid=\"hero-rating-bar__aggregate-rating__score\"] span",
             Elem.node "--" [] [])],
    all := [] }

/-- World resolving the IMDb flow for title `"T"` to a good detail page. -/
def wImGood : World :=
  ⟨fun u =>
    if u = "https://www.imdb.com/find?q=T&s=tt" then some imSearchPage
    else if u = "https://www.imdb.com/title/tt0133093/" then some imDetailGood
    else none⟩

/-- World resolving the IMDb flow for title `"T"` to an unparseable detail
page. -/
def wImBad : World :=
  ⟨fun u =>
    if u = "https://www.imdb.com/find?q=T&s=tt" then some imSearchPage
    else if u = "https://www.imdb.com/title/tt0133093/" then some imDetailBad
    else none⟩

/-- Rotten Tomatoes search page with a relative movie link. -/
def rtSearchPage : Page :=
  { one := [("search-page-result[type=\"movie\"] a",
             Elem.node "" [("href", "/m/x")] [])],
    all := [] }

/-- Rotten Tomatoes detail page with the percentage score `"92%"`. -/
def rtDetailGood : Page :=
  { one := [("rt-button[slot=\"criticsScore\"] rt-text",
             Elem.node "92%" [] [])],
    all := [] }

/-- Rotten Tomatoes detail page whose score text cannot be parsed. -/
def rtDetailBad : Page :=
  { one := [("rt-button[slot=\"criticsScore\"] rt-text",
             Elem.node "--" [] [])],
    all := [] }

/-- World resolving the Rotten Tomatoes flow for title `"T"` to the
`"92%"` detail page. -/
def wRtGood : World :=
  ⟨fun u =>
    if u = "https://www.rottentomatoes.com/search?search=T" then some rtSearchPage
    else if u = "https://www.rottentomatoes.com/m/x" then some rtDetailGood
    else none⟩

/-- World resolving the Rotten Tomatoes flow for title `"T"` to an
unparseable detail page. -/
def wRtBad : World :=
  ⟨fun u =>
    if u = "https://www.rottentomatoes.com/search?search=T" then some rtSearchPage
    else if u = "https://www.rottentomatoes.com/m/x" then some rtDetailBad
    else none⟩

/-- Profile entry with the structured `.userRate` element present. -/
def userEntryStructured : Elem :=
  Elem.node "" []
    [(".filmTitle", Elem.node "Matrix" [] []),
     (".userRate", Elem.node "8" [] [])]

/-- Profile entry interpretable only through the free-text fallback. -/
def userEntryFallback : Elem :=
  Elem.node "" []
    [(".filmTitle", Elem.node " A " [] []),
     (".span-10", Elem.node "user ocenił na 7 gwiazdek" [] [])]

/-- Profile entry whose rating phrase is followed by a non-integer token. -/
def userEntryBadInt : Elem :=
  Elem.node "" []
    [(".filmTitle", Elem.node "B" [] []),
     (".span-10", Elem.node "user ocenił na dużo" [] [])]

/-- Profile entry carrying neither the structured element nor the phrase. -/
def userEntryBare : Elem := Elem.node "" [] []

/-- Profile page listing the given `.voteCommentBox` entries. -/
def userProfilePage (items : List Elem) : Page :=
  { one := [], all := [(".voteCommentBox", items)] }

/-- World serving the profile page of user `"u"` with the given entries. -/
def userWorld (items : List Elem) : World :=
  ⟨fun u =>
    if u = "https://www.filmweb.pl/user/u" then some (userProfilePage items)
    else none⟩

/-! ## Helper lemmas -/

/-- Folding slot updates over a completion order fills the slot of every
index that occurs in the order with its own task's result. -/
theorem foldl_update_mem {α : Type} (tasks : Fin 3 → α) (order : List (Fin 3))
    (i : Fin 3) (s : Fin 3 → Option α)
    (h : i ∈ order ∨ s i = some (tasks i)) :
    order.foldl (fun s j => Function.update s j (some (tasks j))) s i
      = some (tasks i) := by
  induction order generalizing s with
  | nil =>
    rcases h with h | h
    · cases h
    · simpa using h
  | cons a rest ih =>
    simp only [List.foldl_cons]
    apply ih
    rcases h with h | h
    · rcases List.mem_cons.mp h with h | h
      · subst h
        right
        simp [Function.update_apply]
      · left; exact h
    · right
      rw [Function.update_apply]
      split
      · next heq => subst heq; rfl
      · exact h

/-- A slot whose index occurs in the completion order holds its task's
result. -/
theorem gatherSlots_mem {α : Type} (order : List (Fin 3)) (tasks : Fin 3 → α)
    (i : Fin 3) (h : i ∈ order) :
    gatherSlots order tasks i = some (tasks i) :=
  foldl_update_mem tasks order i _ (Or.inl h)

/-- When every index completes, `gather3` returns the three task results in
argument order, whatever the completion order was. -/
theorem gather3_eq {α : Type} (order : List (Fin 3)) (tasks : Fin 3 → α)
    (d : α) (h0 : (0 : Fin 3) ∈ order) (h1 : (1 : Fin 3) ∈ order)
    (h2 : (2 : Fin 3) ∈ order) :
    gather3 order tasks d = [tasks 0, tasks 1, tasks 2] := by
  simp [gather3, gatherSlots_mem _ _ _ h0, gatherSlots_mem _ _ _ h1,
    gatherSlots_mem _ _ _ h2]

/-- Every exit path of the Filmweb scraper labels its result `"Filmweb"`. -/
theorem scrape_filmweb_source (w : World) (t : String) (y : Option String) :
    (scrape_filmweb w t y).source = "Filmweb" := by
  unfold scrape_filmweb scrape_filmweb_body
  repeat' first | rfl | split | dsimp only

/-- Every exit path of the IMDb scraper labels its result `"IMDb"`. -/
theorem scrape_imdb_source (w : World) (t : String) (y : Option String) :
    (scrape_imdb w t y).source = "IMDb" := by
  unfold scrape_imdb scrape_imdb_body
  repeat' first | rfl | split | dsimp only

/-- Every exit path of the Rotten Tomatoes scraper labels its result
`"Rotten Tomatoes"`. -/
theorem scrape_rt_source (w : World) (t : String) (y : Option String) :
    (scrape_rotten_tomatoes w t y).source = "Rotten Tomatoes" := by
  unfold scrape_rotten_tomatoes scrape_rotten_tomatoes_body
  repeat' first | rfl | split | dsimp only

/-- Every exit path of the Rotten Tomatoes scraper leaves `vote_count`
empty. -/
theorem rt_vote_count_none (w : World) (t : String) (y : Option String) :
    (scrape_rotten_tomatoes w t y).vote_count = none := by
  unfold scrape_rotten_tomatoes scrape_rotten_tomatoes_body
  repeat' first | rfl | split | dsimp only

/-- Under total network failure the Filmweb scraper returns its bare
record. -/
theorem scrape_filmweb_all_fail (w : World) (t : String) (y : Option String)
    (hw : ∀ u, w.fetch u = none) : scrape_filmweb w t y = bareFilmweb := by
  simp [scrape_filmweb, scrape_filmweb_body, hw]

/-- Under total network failure the IMDb scraper returns its bare record. -/
theorem scrape_imdb_all_fail (w : World) (t : String) (y : Option String)
    (hw : ∀ u, w.fetch u = none) : scrape_imdb w t y = bareIMDb := by
  simp [scrape_imdb, scrape_imdb_body, hw]

/-- Under total network failure the Rotten Tomatoes scraper returns its
bare record. -/
theorem scrape_rt_all_fail (w : World) (t : String) (y : Option String)
    (hw : ∀ u, w.fetch u = none) :
    scrape_rotten_tomatoes w t y = bareRT := by
  simp [scrape_rotten_tomatoes, scrape_rotten_tomatoes_body, hw]

/-! ## Claim theorems -/

/-- C1: for every `(title, year)` input and every completion order in which
all three extraction tasks settle, `get_all_ratings` returns a `ratings`
sequence of length exactly 3 whose entries are, in order, the Filmweb
result, the IMDb result and the Rotten Tomatoes result — independent of
which task completed first. -/
theorem combined_ratings_length_and_order (w : World) (title : String)
    (year : Option String) (order : List (Fin 3))
    (h0 : (0 : Fin 3) ∈ order) (h1 : (1 : Fin 3) ∈ order)
    (h2 : (2 : Fin 3) ∈ order) :
    (get_all_ratings w title year order).ratings.length = 3 ∧
    (get_all_ratings w title year order).ratings =
      [scrape_filmweb w title year, scrape_imdb w title year,
        scrape_rotten_tomatoes w title year] ∧
    (get_all_ratings w title year order).ratings.map RatingSource.source =
      ["Filmweb", "IMDb", "Rotten Tomatoes"] := by
  have he : (get_all_ratings w title year order).ratings =
      [scrape_filmweb w title year, scrape_imdb w title year,
        scrape_rotten_tomatoes w title year] := by
    show gather3 order (ratingTasks w title year) _ = _
    rw [gather3_eq _ _ _ h0 h1 h2]
    rfl
  refine ⟨by rw [he]; rfl, he, ?_⟩
  rw [he]
  simp [scrape_filmweb_source, scrape_imdb_source, scrape_rt_source]

/-- Witness for C1: a concrete world, a year, and the completion order
"Rotten Tomatoes first, then Filmweb, then IMDb". -/
theorem combined_ratings_length_and_order_witness :
    ((0 : Fin 3) ∈ ([2, 0, 1] : List (Fin 3))) ∧
    (get_all_ratings failWorld "Matrix" (some "1999") [2, 0, 1]).ratings.length = 3 ∧
    (get_all_ratings failWorld "Matrix" (some "1999") [2, 0, 1]).ratings =
      [scrape_filmweb failWorld "Matrix" (some "1999"),
        scrape_imdb failWorld "Matrix" (some "1999"),
        scrape_rotten_tomatoes failWorld "Matrix" (some "1999")] ∧
    (get_all_ratings failWorld "Matrix" (some "1999") [2, 0, 1]).ratings.map
        RatingSource.source = ["Filmweb", "IMDb", "Rotten Tomatoes"] :=
  ⟨by decide,
    (combined_ratings_length_and_order failWorld "Matrix" (some "1999")
      [2, 0, 1] (by decide) (by decide) (by decide)).1,
    (combined_ratings_length_and_order failWorld "Matrix" (some "1999")
      [2, 0, 1] (by decide) (by decide) (by decide)).2⟩

/-- C2: when every underlying fetch fails, `get_all_ratings` still returns
a well-formed `CombinedMovieData` whose three entries are the bare
per-source records, each with `rating = none` — the call never escalates a
failure. -/
theorem combined_ratings_total_failure (w : World) (title : String)
    (year : Option String) (order : List (Fin 3))
    (hw : ∀ u, w.fetch u = none)
    (h0 : (0 : Fin 3) ∈ order) (h1 : (1 : Fin 3) ∈ order)
    (h2 : (2 : Fin 3) ∈ order) :
    get_all_ratings w title year order =
      { query_title := title, year := year,
        ratings := [bareFilmweb, bareIMDb, bareRT] } ∧
    ∀ r ∈ (get_all_ratings w title year order).ratings, r.rating = none := by
  have he : (get_all_ratings w title year order).ratings =
      [bareFilmweb, bareIMDb, bareRT] := by
    show gather3 order (ratingTasks w title year) _ = _
    rw [gather3_eq _ _ _ h0 h1 h2,
      show ratingTasks w title year 0 = scrape_filmweb w title year from rfl,
      show ratingTasks w title year 1 = scrape_imdb w title year from rfl,
      show ratingTasks w title year 2 = scrape_rotten_tomatoes w title year from rfl,
      scrape_filmweb_all_fail w title year hw,
      scrape_imdb_all_fail w title year hw, scrape_rt_all_fail w title year hw]
  constructor
  · have hsplit : get_all_ratings w title year order =
        { query_title := title, year := year,
          ratings := (get_all_ratings w title year order).ratings } := rfl
    rw [hsplit, he]
  · intro r hr
    rw [he] at hr
    simp only [List.mem_cons, List.not_mem_nil, or_false] at hr
    rcases hr with h | h | h <;> subst h <;> rfl

/-- Witness for C2: the all-failing world with every task settling. -/
theorem combined_ratings_total_failure_witness :
    (∀ u, failWorld.fetch u = none) ∧
    get_all_ratings failWorld "Matrix" none [1, 2, 0] =
      { query_title := "Matrix", year := none,
        ratings := [bareFilmweb, bareIMDb, bareRT] } ∧
    ∀ r ∈ (get_all_ratings failWorld "Matrix" none [1, 2, 0]).ratings,
      r.rating = none :=
  ⟨fun _ => rfl,
    (combined_ratings_total_failure failWorld "Matrix" none [1, 2, 0]
      (fun _ => rfl) (by decide) (by decide) (by decide)).1,
    (combined_ratings_total_failure failWorld "Matrix" none [1, 2, 0]
      (fun _ => rfl) (by decide) (by decide) (by decide)).2⟩

/-- C3 (counterexample): the Rotten Tomatoes search query is built from the
title alone — with the year `"1999"` supplied, the query URL is identical
to the year-less one and contains no trace of the year, while Filmweb's
query does embed it. -/
theorem rt_query_ignores_year :
    rt_search_url "Matrix" (some "1999") = rt_search_url "Matrix" none ∧
    rt_search_url "Matrix" (some "1999") =
      "https://www.rottentomatoes.com/search?search=Matrix" ∧
    filmweb_search_url "Matrix" (some "1999") =
      "https://www.filmweb.pl/search?q=Matrix%201999" := by
  refine ⟨rfl, ?_, ?_⟩ <;> decide

/-- C3 (amended): with a present year, the Filmweb and IMDb queries are the
title and year concatenated with a space and URL-encoded; the Rotten
Tomatoes query URL-encodes the title alone, ignoring the year. -/
theorem search_query_per_source (title y : String) (year : Option String)
    (hy : year = some y) :
    filmweb_search_url title year =
      "https://www.filmweb.pl/search?q=" ++ quote (title ++ " " ++ y) ∧
    imdb_search_url title year =
      "https://www.imdb.com/find?q=" ++ quote (title ++ " " ++ y) ++ "&s=tt" ∧
    rt_search_url title year =
      "https://www.rottentomatoes.com/search?search=" ++ quote title := by
  subst hy
  exact ⟨rfl, rfl, rfl⟩

/-- Witness for the amended C3 at `("Matrix", some "1999")`. -/
theorem search_query_per_source_witness :
    (some "1999" = some "1999") ∧
    filmweb_search_url "Matrix" (some "1999") =
      "https://www.filmweb.pl/search?q=" ++ quote ("Matrix" ++ " " ++ "1999") ∧
    imdb_search_url "Matrix" (some "1999") =
      "https://www.imdb.com/find?q=" ++ quote ("Matrix" ++ " " ++ "1999")
        ++ "&s=tt" ∧
    rt_search_url "Matrix" (some "1999") =
      "https://www.rottentomatoes.com/search?search=" ++ quote "Matrix" :=
  ⟨rfl, search_query_per_source "Matrix" "1999" (some "1999") rfl⟩

/-- C4 (counterexample): in `wFwBad` the Filmweb detail page is fetched and
its URL resolved, the score element is present but its text fails the
numeric parse — and the returned `RatingSource` carries `url = none`, not
the resolved detail URL: the `ValueError` escapes to the outer `except`,
which returns the bare record. -/
theorem filmweb_parse_failure_drops_url :
    (wFwBad.fetch "https://www.filmweb.pl/film/X").isSome = true ∧
    (fwDetailBad.selectOne ".filmRating__rateValue").isSome = true ∧
    pyFloat (pyReplace (pyStrip ((fwDetailBad.selectOne
      ".filmRating__rateValue").getD (Elem.node "" [] [])).text) "," ".") = none ∧
    scrape_filmweb wFwBad "T" none =
      { source := "Filmweb", rating := none, vote_count := none,
        url := none } := by
  refine ⟨rfl, rfl, by decide, by decide⟩

/-- C4 (amended): only the Rotten Tomatoes extractor keeps the resolved
detail URL when the raw score text fails numeric parsing (its inner
`try/except` absorbs the `ValueError`); in the Filmweb and IMDb extractors
the parse failure escapes to the outer handler, which returns the bare
record with `rating = none` and no URL. -/
theorem parse_failure_url_by_variant :
    (∀ (w : World) (t : String) (y : Option String) (soup : Page)
      (movie_link : Elem) (href : String) (d_soup : Page) (tag : Elem),
      w.fetch (rt_search_url t y) = some soup →
      soup.selectOne "search-page-result[type=\"movie\"] a" = some movie_link →
      movie_link.attr "href" = some href →
      w.fetch (if !pyStartsWith href "http"
        then "https://www.rottentomatoes.com" ++ href else href) = some d_soup →
      d_soup.selectOne "rt-button[slot=\"criticsScore\"] rt-text" = some tag →
      pyFloat (pyReplace (pyStrip tag.text) "%" "") = none →
      scrape_rotten_tomatoes w t y =
        { source := "Rotten Tomatoes", rating := none, vote_count := none,
          url := some (if !pyStartsWith href "http"
            then "https://www.rottentomatoes.com" ++ href else href) }) ∧
    (∀ (w : World) (t : String) (y : Option String) (soup : Page)
      (result : Elem) (href : String) (d_soup : Page) (tag : Elem),
      w.fetch (filmweb_search_url t y) = some soup →
      soup.selectOne ".resultsList .preview__link" = some result →
      result.attr "href" = some href →
      w.fetch (if pyStartsWith href "/"
        then "https://www.filmweb.pl" ++ href else href) = some d_soup →
      d_soup.selectOne ".filmRating__rateValue" = some tag →
      pyFloat (pyReplace (pyStrip tag.text) "," ".") = none →
      scrape_filmweb w t y = bareFilmweb) ∧
    (∀ (w : World) (t : String) (y : Option String) (soup : Page)
      (result_link : Elem) (d_soup : Page) (tag : Elem),
      w.fetch (imdb_search_url t y) = some soup →
      soup.selectOne ".ipc-metadata-list-summary-item__t" = some result_link →
      w.fetch ((pySplit ("https://www.imdb.com" ++
        formatPyOpt (result_link.attr "href")) "?").headD "") = some d_soup →
      d_soup.selectOne
        "[data-testid=\"hero-rating-bar__aggregate-rating__score\"] span"
          = some tag →
      pyFloat (pyStrip tag.text) = none →
      scrape_imdb w t y = bareIMDb) := by
  refine ⟨?_, ?_, ?_⟩
  · intro w t y soup movie_link href d_soup tag h1 h2 h3 h4 h5 h6
    unfold scrape_rotten_tomatoes scrape_rotten_tomatoes_body
    rw [h1]
    dsimp only
    rw [h2]
    dsimp only [Option.orElse]
    rw [h3]
    dsimp only
    rw [h4]
    dsimp only
    rw [h5]
    dsimp only [Option.orElse]
    rw [h6]
    rfl
  · intro w t y soup result href d_soup tag h1 h2 h3 h4 h5 h6
    unfold scrape_filmweb scrape_filmweb_body
    rw [h1]
    dsimp only
    rw [h2]
    dsimp only [Option.orElse]
    rw [h3]
    dsimp only
    rw [h4]
    dsimp only
    rw [h5]
    dsimp only
    rw [h6]
    rfl
  · intro w t y soup result_link d_soup tag h1 h2 h3 h4 h5
    unfold scrape_imdb scrape_imdb_body
    rw [h1]
    dsimp only
    rw [h2]
    dsimp only
    rw [h3]
    dsimp only
    rw [h4]
    dsimp only
    rw [h5]
    rfl

/-- Witness for the amended C4: one unparseable detail page per source. -/
theorem parse_failure_url_by_variant_witness :
    scrape_rotten_tomatoes wRtBad "T" none =
      { source := "Rotten Tomatoes", rating := none, vote_count := none,
        url := some "https://www.rottentomatoes.com/m/x" } ∧
    scrape_filmweb wFwBad "T" none = bareFilmweb ∧
    scrape_imdb wImBad "T" none = bareIMDb :=
  ⟨parse_failure_url_by_variant.1 wRtBad "T" none rtSearchPage
      (Elem.node "" [("href", "/m/x")] []) "/m/x" rtDetailBad
      (Elem.node "--" [] []) rfl rfl rfl rfl rfl (by decide),
    parse_failure_url_by_variant.2.1 wFwBad "T" none fwSearchPage
      (Elem.node "" [("href", "/film/X")] []) "/film/X" fwDetailBad
      (Elem.node "N/A" [] []) rfl rfl rfl rfl rfl (by decide),
    parse_failure_url_by_variant.2.2 wImBad "T" none imSearchPage
      (Elem.node "" [("href", "/title/tt0133093/?ref_=fn_al_tt_1")] [])
      imDetailBad (Elem.node "--" [] [])
      rfl rfl rfl rfl (by decide)⟩

/-- The per-item loop emits exactly the interpretable entries, in document
order, when no item raises. -/
theorem userLoop_no_exception (items : List Elem) (acc : List UserRating)
    (h : ∀ item ∈ items, userItem item ≠ none) :
    userLoop items acc =
      some (acc ++ items.filterMap (fun i => (userItem i).getD none)) := by
  induction items generalizing acc with
  | nil => simp [userLoop]
  | cons a rest ih =>
    have ha : userItem a ≠ none := h a (List.mem_cons_self a rest)
    have hrest : ∀ item ∈ rest, userItem item ≠ none :=
      fun i hi => h i (List.mem_cons_of_mem a hi)
    match hA : userItem a with
    | none => exact absurd hA ha
    | some none =>
      rw [show userLoop (a :: rest) acc = userLoop rest acc by
        simp [userLoop, hA]]
      rw [ih acc hrest]
      congr 1
      simp [List.filterMap_cons, hA]
    | some (some r) =>
      rw [show userLoop (a :: rest) acc = userLoop rest (acc ++ [r]) by
        simp [userLoop, hA]]
      rw [ih (acc ++ [r]) hrest]
      congr 1
      simp [List.filterMap_cons, hA]

/-- One raising item aborts the whole per-item loop. -/
theorem userLoop_exception (items : List Elem) (acc : List UserRating)
    (h : ∃ item ∈ items, userItem item = none) :
    userLoop items acc = none := by
  induction items generalizing acc with
  | nil => simp at h
  | cons a rest ih =>
    match hA : userItem a with
    | none => simp [userLoop, hA]
    | some none =>
      have hrest : ∃ item ∈ rest, userItem item = none := by
        rcases h with ⟨i, hi, hnone⟩
        rcases List.mem_cons.mp hi with rfl | hi
        · rw [hA] at hnone; cases hnone
        · exact ⟨i, hi, hnone⟩
      simp [userLoop, hA, ih _ hrest]
    | some (some r) =>
      have hrest : ∃ item ∈ rest, userItem item = none := by
        rcases h with ⟨i, hi, hnone⟩
        rcases List.mem_cons.mp hi with rfl | hi
        · rw [hA] at hnone; cases hnone
        · exact ⟨i, hi, hnone⟩
      simp [userLoop, hA, ih _ hrest]

/-- C5 (code evaluated at the failing input): a profile entry carrying the
structured `.userRate` element (value text `"8"`) and a title yields no
`UserRating` at all — the loop's only `append` sits inside the fallback
branch guarded by `if not rate_tag`, so an entry whose structured element
is present contributes nothing, contradicting the structured-first
contract the code's own "Fallback" comment implies. -/
theorem structured_entry_never_emitted :
    userEntryStructured.selectOne ".userRate" = some (Elem.node "8" [] []) ∧
    userEntryStructured.selectOne ".filmTitle" =
      some (Elem.node "Matrix" [] []) ∧
    scrape_filmweb_user_recent (userWorld [userEntryStructured]) "u" = [] :=
  ⟨rfl, rfl, by decide⟩

/-- C6 (counterexample): `userEntryFallback` alone is interpretable and
yields its `UserRating`; adding `userEntryBadInt` — an entry from which no
rating can be interpreted (its phrase is followed by a non-integer token) —
does not merely drop that entry: `int(...)` raises, the `except` handler
fires, and the whole result collapses to `[]`, losing the interpretable
entry too. -/
theorem uninterpretable_entry_collapses_output :
    scrape_filmweb_user_recent (userWorld [userEntryFallback]) "u" =
      [{ title := "A", user_rating := 7, timestamp := none }] ∧
    scrape_filmweb_user_recent
      (userWorld [userEntryFallback, userEntryBadInt]) "u" = [] := by
  exact ⟨by decide, by decide⟩

/-- C6 (amended): as long as no entry raises inside the loop (no entry has
the rating phrase followed by a non-integer token or a missing title),
every non-interpretable entry is silently omitted with no placeholder and
the interpretable entries are emitted in document order; an entry that
raises collapses the whole result to the empty list instead. -/
theorem droppable_entries_in_document_order (w : World) (username : String)
    (soup : Page)
    (hf : w.fetch (filmweb_user_url username) = some soup)
    (h : ∀ item ∈ soup.select ".voteCommentBox", userItem item ≠ none) :
    scrape_filmweb_user_recent w username =
      (soup.select ".voteCommentBox").filterMap
        (fun i => (userItem i).getD none) := by
  unfold scrape_filmweb_user_recent
  rw [hf]
  dsimp only
  rw [userLoop_no_exception _ _ h]
  simp

/-- Witness for the amended C6: a page with one interpretable and one
droppable entry. -/
theorem droppable_entries_witness :
    (∀ item ∈ (userProfilePage [userEntryFallback, userEntryBare]).select
        ".voteCommentBox", userItem item ≠ none) ∧
    scrape_filmweb_user_recent
        (userWorld [userEntryFallback, userEntryBare]) "u" =
      ((userProfilePage [userEntryFallback, userEntryBare]).select
        ".voteCommentBox").filterMap (fun i => (userItem i).getD none) :=
  ⟨by decide,
    droppable_entries_in_document_order
      (userWorld [userEntryFallback, userEntryBare]) "u"
      (userProfilePage [userEntryFallback, userEntryBare]) rfl (by decide)⟩

/-- C7: the user-activity extractor never fails outward — a failed profile
fetch yields `[]`, and any exception raised while parsing the entries
(the only parse step that can raise) also yields `[]`. -/
theorem recentActivity_failure_absorbed (w : World) (username : String) :
    (w.fetch (filmweb_user_url username) = none →
      scrape_filmweb_user_recent w username = []) ∧
    ∀ soup, w.fetch (filmweb_user_url username) = some soup →
      (∃ item ∈ soup.select ".voteCommentBox", userItem item = none) →
      scrape_filmweb_user_recent w username = [] := by
  constructor
  · intro hn
    unfold scrape_filmweb_user_recent
    rw [hn]
  · intro soup hs hex
    unfold scrape_filmweb_user_recent
    rw [hs]
    dsimp only
    rw [userLoop_exception _ _ hex]
    rfl

/-- Witness for C7: a dead network, and a profile whose single entry makes
the loop raise. -/
theorem recentActivity_failure_absorbed_witness :
    (failWorld.fetch (filmweb_user_url "u") = none ∧
      scrape_filmweb_user_recent failWorld "u" = []) ∧
    ((userWorld [userEntryBadInt]).fetch (filmweb_user_url "u") =
        some (userProfilePage [userEntryBadInt]) ∧
      scrape_filmweb_user_recent (userWorld [userEntryBadInt]) "u" = []) :=
  ⟨⟨rfl, (recentActivity_failure_absorbed failWorld "u").1 rfl⟩,
    ⟨rfl, (recentActivity_failure_absorbed (userWorld [userEntryBadInt]) "u").2
      (userProfilePage [userEntryBadInt]) rfl (by decide)⟩⟩

/-- C8: when the Rotten Tomatoes detail page's score text is `"92%"`, the
trailing percent sign is stripped before the numeric parse and the rating
is `92`; and `vote_count` is `none` for every input and page content. -/
theorem rt_percent_normalization_and_votes (w : World) (t : String)
    (y : Option String) (soup : Page) (movie_link : Elem) (href : String)
    (d_soup : Page) (tag : Elem)
    (h1 : w.fetch (rt_search_url t y) = some soup)
    (h2 : soup.selectOne "search-page-result[type=\"movie\"] a" = some movie_link)
    (h3 : movie_link.attr "href" = some href)
    (h4 : w.fetch (if !pyStartsWith href "http"
      then "https://www.rottentomatoes.com" ++ href else href) = some d_soup)
    (h5 : d_soup.selectOne "rt-button[slot=\"criticsScore\"] rt-text" = some tag)
    (h6 : tag.text = "92%") :
    pyReplace (pyStrip "92%") "%" "" = "92" ∧
    (scrape_rotten_tomatoes w t y).rating = some (92 : ℚ) ∧
    ∀ (w' : World) (t' : String) (y' : Option String),
      (scrape_rotten_tomatoes w' t' y').vote_count = none := by
  refine ⟨by decide, ?_, fun w' t' y' => rt_vote_count_none w' t' y'⟩
  unfold scrape_rotten_tomatoes scrape_rotten_tomatoes_body
  rw [h1]
  dsimp only
  rw [h2]
  dsimp only [Option.orElse]
  rw [h3]
  dsimp only
  rw [h4]
  dsimp only
  rw [h5]
  dsimp only [Option.orElse]
  rw [h6]
  dsimp only [Option.getD]
  decide

/-- Witness for C8: the concrete Rotten Tomatoes world serving `"92%"`. -/
theorem rt_percent_normalization_witness :
    pyReplace (pyStrip "92%") "%" "" = "92" ∧
    (scrape_rotten_tomatoes wRtGood "T" none).rating = some (92 : ℚ) ∧
    ∀ (w' : World) (t' : String) (y' : Option String),
      (scrape_rotten_tomatoes w' t' y').vote_count = none :=
  rt_percent_normalization_and_votes wRtGood "T" none rtSearchPage
    (Elem.node "" [("href", "/m/x")] []) "/m/x" rtDetailGood
    (Elem.node "92%" [] []) rfl rfl rfl rfl rfl rfl

/-- C9: when the Filmweb detail page's score text is `" 8,6 "`, the
surrounding whitespace is stripped and the comma decimal separator
replaced by a period before the numeric parse, and the rating is `8.6`. -/
theorem filmweb_decimal_normalization (w : World) (t : String)
    (y : Option String) (soup : Page) (result : Elem) (href : String)
    (d_soup : Page) (tag : Elem)
    (h1 : w.fetch (filmweb_search_url t y) = some soup)
    (h2 : soup.selectOne ".resultsList .preview__link" = some result)
    (h3 : result.attr "href" = some href)
    (h4 : w.fetch (if pyStartsWith href "/"
      then "https://www.filmweb.pl" ++ href else href) = some d_soup)
    (h5 : d_soup.selectOne ".filmRating__rateValue" = some tag)
    (h6 : tag.text = " 8,6 ") :
    pyReplace (pyStrip " 8,6 ") "," "." = "8.6" ∧
    (scrape_filmweb w t y).rating = some (8.6 : ℚ) := by
  have h86 : (8.6 : ℚ) = mkRat 43 5 := by
    rw [Rat.mkRat_eq_div]; norm_num
  refine ⟨by decide, ?_⟩
  unfold scrape_filmweb scrape_filmweb_body
  rw [h1]
  dsimp only
  rw [h2]
  dsimp only [Option.orElse]
  rw [h3]
  dsimp only
  rw [h4]
  dsimp only
  rw [h5]
  dsimp only
  rw [h6, h86]
  have hE : (pyFloat (pyReplace (pyStrip " 8,6 ") "," ".")).map some =
      some (some (mkRat 43 5)) := by decide
  rw [hE]
  dsimp only [Option.getD]

/-- Witness for C9: the concrete Filmweb world serving `" 8,6 "`. -/
theorem filmweb_decimal_normalization_witness :
    pyReplace (pyStrip " 8,6 ") "," "." = "8.6" ∧
    (scrape_filmweb wFwGood "T" none).rating = some (8.6 : ℚ) :=
  filmweb_decimal_normalization wFwGood "T" none fwSearchPage
    (Elem.node "" [("href", "/film/X")] []) "/film/X" fwDetailGood
    (Elem.node " 8,6 " [] []) rfl rfl rfl rfl rfl rfl

/-- Lemma: `splitFuel` never produces an empty fragment list. -/
theorem splitFuel_ne_nil (sep : List Char) (fuel : Nat) (cs acc : List Char) :
    splitFuel sep fuel cs acc ≠ [] := by
  induction fuel generalizing cs acc with
  | zero => cases cs <;> simp [splitFuel]
  | succ n ih =>
    cases cs with
    | nil => simp [splitFuel]
    | cons c rest =>
      rw [splitFuel]
      split
      · simp
      · exact ih rest (c :: acc)

/-- The first fragment of a single-character split never contains the
separator character (given enough fuel). -/
theorem splitFuel_single_head_not_mem (c0 : Char) (fuel : Nat) :
    ∀ (cs acc : List Char), cs.length ≤ fuel → c0 ∉ acc →
      c0 ∉ (splitFuel [c0] fuel cs acc).headD [] := by
  induction fuel with
  | zero =>
    intro cs acc hlen hacc
    have hnil : cs = [] := List.length_eq_zero.mp (Nat.le_zero.mp hlen)
    subst hnil
    simpa [splitFuel] using hacc
  | succ n ih =>
    intro cs acc hlen hacc
    cases cs with
    | nil => simpa [splitFuel] using hacc
    | cons c rest =>
      by_cases hc : [c0].isPrefixOf (c :: rest) = true
      · rw [splitFuel, if_pos hc]
        simpa using hacc
      · have hne : c0 ≠ c := by
          simp [List.isPrefixOf] at hc
          exact hc
        rw [splitFuel, if_neg hc]
        exact ih rest (c :: acc) (Nat.le_of_succ_le_succ hlen)
          (by simp [hacc, hne])

/-- Heads of mapped fragment lists. -/
theorem headD_map_mk (l : List (List Char)) (h : l ≠ []) :
    (l.map (fun cs => String.mk cs)).headD "" = String.mk (l.headD []) := by
  cases l with
  | nil => exact absurd rfl h
  | cons a t => rfl

/-- Python `s.split("?")[0]` contains no question mark. -/
theorem pySplit_qmark_head_no_qmark (s : String) :
    '?' ∉ ((pySplit s "?").headD "").toList := by
  unfold pySplit
  rw [headD_map_mk _ (splitFuel_ne_nil _ _ _ _)]
  show '?' ∉ (splitFuel ['?'] s.toList.length s.toList []).headD []
  exact splitFuel_single_head_not_mem '?' s.toList.length s.toList []
    le_rfl (by simp)

/-- C10: the IMDb detail URL placed in the returned `RatingSource` is the
search-result `href` prefixed with `https://www.imdb.com` and truncated at
the first `'?'` (`.split("?")[0]`), so the reported URL never contains a
query string. -/
theorem imdb_url_query_stripped (w : World) (t : String) (y : Option String)
    (soup : Page) (result_link : Elem) (href : String) (d_soup : Page)
    (h1 : w.fetch (imdb_search_url t y) = some soup)
    (h2 : soup.selectOne ".ipc-metadata-list-summary-item__t" = some result_link)
    (h3 : result_link.attr "href" = some href)
    (h4 : w.fetch ((pySplit ("https://www.imdb.com" ++ href) "?").headD "")
      = some d_soup)
    (h5 : ∀ sp, d_soup.selectOne
      "[data-testid=\"hero-rating-bar__aggregate-rating__score\"] span"
        = some sp → (pyFloat (pyStrip sp.text)).isSome = true) :
    (scrape_imdb w t y).url =
      some ((pySplit ("https://www.imdb.com" ++ href) "?").headD "") ∧
    '?' ∉ ((pySplit ("https://www.imdb.com" ++ href) "?").headD "").toList := by
  refine ⟨?_, pySplit_qmark_head_no_qmark _⟩
  unfold scrape_imdb scrape_imdb_body
  rw [h1]
  dsimp only
  rw [h2]
  dsimp only
  rw [h3]
  dsimp only [formatPyOpt]
  rw [h4]
  dsimp only
  cases hsel : d_soup.selectOne
      "[data-testid=\"hero-rating-bar__aggregate-rating__score\"] span" with
  | none => dsimp only [Option.getD]
  | some sp =>
    obtain ⟨q, hq⟩ := Option.isSome_iff_exists.mp (h5 sp hsel)
    dsimp only
    rw [hq]
    dsimp only [Option.map, Option.getD]

/-- Witness for C10: the concrete IMDb world whose search `href` carries a
query string. -/
theorem imdb_url_query_stripped_witness :
    (scrape_imdb wImGood "T" none).url =
      some ((pySplit
        ("https://www.imdb.com" ++ "/title/tt0133093/?ref_=fn_al_tt_1")
        "?").headD "") ∧
    '?' ∉ ((pySplit
        ("https://www.imdb.com" ++ "/title/tt0133093/?ref_=fn_al_tt_1")
        "?").headD "").toList :=
  imdb_url_query_stripped wImGood "T" none imSearchPage
    (Elem.node "" [("href", "/title/tt0133093/?ref_=fn_al_tt_1")] [])
    "/title/tt0133093/?ref_=fn_al_tt_1" imDetailGood
    rfl rfl rfl rfl (by
      intro sp hsp
      have h0 : imDetailGood.selectOne
        "[data-testid=\"hero-rating-bar__aggregate-rating__score\"] span" =
          some (Elem.node "8.7" [] []) := rfl
      rw [h0] at hsp
      cases Option.some_inj.mp hsp
      decide)
